import Mathlib

/-!
Verification of the vulkano-sandbox demo program (src/main.rs).

The program is a single linear `main` that:
1. acquires a Vulkan device and queue,
2. copies a 64-element source buffer to a destination buffer,
3. runs a compute pass multiplying a 65536-element buffer by 12,
4. runs a Mandelbrot compute pass into a 512x512 image and reads it back,
5. rasterizes a triangle into the same image and reads it back,
saving two PNG files, and after every submission performs an unconditional
blocking wait before any host read.

We embed the program's resource/submission trace, its buffer operations, the
device-acquisition logic and the rasterization command buffer as Lean
definitions and prove the spec's claims about them.
-/

namespace VulkanoSandbox

/-! ## Resources and the submission/read trace (main.rs overall structure)

The host-visible resources `main` creates, in order of creation:
`source`/`dest` (line 48-51), `data_buffer` (line 74), the 512x512 storage
image (line 103), the Mandelbrot readback buffer (line 106), the triangle
readback buffer (line 129) and the vertex buffer (line 137). -/

inductive Res where
  | srcBuf
  | dstBuf
  | dataBuf
  | img
  | mandelBuf
  | triBuf
  | vertexBuf
  deriving DecidableEq, Repr

/-- One host-visible event of the program: submission of a command buffer
(with the set of resources that command buffer writes), a blocking wait on a
submission's completion handle (`none` timeout = unbounded, as in
`wait(None)`), or a host read of a resource. -/
inductive Event where
  | submit (sid : Nat) (writes : List Res)
  | wait (sid : Nat) (timeout : Option Nat)
  | hostRead (r : Res)
  deriving DecidableEq, Repr

/-- The event trace of `main`, in program order:
submission of the copy command buffer (line 62; writes `dest`), wait
(lines 63-64), host reads of `source` and `dest` (lines 67-68);
submission of the multiply-by-12 dispatch (line 91; writes `data_buffer`),
wait (lines 92-93), host read (line 95); submission of the Mandelbrot
dispatch plus image-to-buffer copy (line 123; writes the image and the
readback buffer), wait (line 123), host read (line 125); submission of the
rasterization command buffer (line 193; writes the image and its readback
buffer), wait (lines 194-195), host read (line 197). -/
def mainTrace : List Event :=
  [ .submit 0 [.dstBuf],
    .wait 0 none,
    .hostRead .srcBuf,
    .hostRead .dstBuf,
    .submit 1 [.dataBuf],
    .wait 1 none,
    .hostRead .dataBuf,
    .submit 2 [.img, .mandelBuf],
    .wait 2 none,
    .hostRead .mandelBuf,
    .submit 3 [.img, .triBuf],
    .wait 3 none,
    .hostRead .triBuf ]

/-- Default event used to read a trace at an index. -/
def defEvent : Event := .hostRead .srcBuf

/-- `pairOkB tr i j = true` unless position `i` is a submission writing some
resource `r`, position `j` is a host read of that `r`, and no unbounded
blocking wait on that submission's handle occurs strictly before `j`. -/
def pairOkB (tr : List Event) (i j : Nat) : Bool :=
  match tr.getD i defEvent, tr.getD j defEvent with
  | .submit s ws, .hostRead r =>
      !(ws.contains r) ||
        ((List.range j).any fun k =>
          match tr.getD k defEvent with
          | .wait s2 t => s2 == s && t == none
          | _ => false)
  | _, _ => true

/-- A trace satisfies wait-before-read when every host read of a resource
written by some submitted command buffer comes strictly after an unbounded
blocking wait on that submission's completion handle. -/
def waitBeforeRead (tr : List Event) : Prop :=
  ∀ i < tr.length, ∀ j < tr.length, pairOkB tr i j = true

/-! ## The buffer copy (main.rs lines 48-70)

`source` is a 64-element buffer initialized to `0..64`, `dest` a 64-element
buffer of zeros; one command buffer records `copy_buffer(source, dest)`. -/

/-- The host-visible pair of buffers involved in the copy. -/
structure CopyState where
  source : List Nat
  dest : List Nat
  deriving DecidableEq, Repr

/-- The initial state: `source = 0..64`, `dest = 64 zeros` (lines 48-51). -/
def copyInit : CopyState :=
  { source := List.range 64, dest := List.replicate 64 0 }

/-- Executing the `copy_buffer(source, dest)` command: the first
`source.length` elements of `dest` are overwritten with `source`; `source`
itself is untouched. -/
def copy_buffer (s : CopyState) : CopyState :=
  { source := s.source, dest := s.source ++ s.dest.drop s.source.length }

/-! ## The multiply-by-12 compute pass (main.rs lines 74-98)

`data_buffer` holds `0..65536` as 32-bit unsigned values; the dispatch runs
the shader `src/op.glsl` over every element. -/

/-- The initial contents of `data_buffer`: element `i` is `i` (line 74). -/
def dataBuffer : List Nat := List.range 65536

/-- Modelled from the spec: the compute shader `src/op.glsl` is not under
`src/`; per the spec the pass is defined as "multiply by 12" over every
element of the bound buffer, in the element's 32-bit unsigned range. -/
def mul12Pass (b : List Nat) : List Nat :=
  b.map fun v => (v * 12) % 4294967296

/-! ## Device acquisition (main.rs lines 27-41) -/

/-- A Vulkan queue family, abstracted to the two capability bits the
program and the spec mention. -/
structure QueueFamily where
  supports_graphics : Bool
  supports_compute : Bool
  deriving DecidableEq, Repr

/-- The result of device acquisition: the selected queue family, the list
of extended features enabled at device creation, and how many queues are
returned. -/
structure DeviceContext where
  family : QueueFamily
  features : List String
  queueCount : Nat
  deriving DecidableEq, Repr

/-- Device acquisition as the code performs it (lines 27-41): take the
first enumerated physical device unconditionally
(`PhysicalDevice::enumerate(..).next()`), on it find the first queue family
with `supports_graphics()`, open the device with `Features::none()` and
take the single returned queue; `none` models the fatal `expect` when no
device exists or the first device has no graphics queue family. -/
def acquire_device (devices : List (List QueueFamily)) : Option DeviceContext :=
  match devices with
  | [] => none
  | d :: _ =>
      (d.find? fun q => q.supports_graphics).map fun q =>
        { family := q, features := [], queueCount := 1 }

/-- Modelled from the claim's words, for comparison with `acquire_device`:
select the first device exposing a queue family supporting graphics and
compute, and on it the first such family. -/
def acquire_device_claim (devices : List (List QueueFamily)) : Option DeviceContext :=
  (devices.find? fun d =>
      d.any fun q => q.supports_graphics && q.supports_compute).bind
    fun d =>
      (d.find? fun q => q.supports_graphics && q.supports_compute).map fun q =>
        { family := q, features := [], queueCount := 1 }

/-- A two-device configuration: the first device's only queue family
supports graphics but not compute; the second device's family supports
both. -/
def devsGraphicsOnlyFirst : List (List QueueFamily) :=
  [ [ { supports_graphics := true, supports_compute := false } ],
    [ { supports_graphics := true, supports_compute := true } ] ]

/-- A device list whose first device has no graphics family in first
position but one in second position. -/
def devsOneDevice : List (List QueueFamily) :=
  [ [ { supports_graphics := false, supports_compute := true },
      { supports_graphics := true, supports_compute := true } ] ]

/-- The device context selected by `acquire_device` on `devsOneDevice`. -/
def ctxGC : DeviceContext :=
  { family := { supports_graphics := true, supports_compute := true },
    features := [], queueCount := 1 }

/-! ## The rasterization pass (main.rs lines 129-199) -/

/-- An RGBA8 pixel: four byte components (r, g, b, a). -/
abbrev RGBA := Nat × Nat × Nat × Nat

/-- The clear value declared for the render pass (line 182):
`[0.0, 0.0, 0.0, 0.0]`, i.e. bytes (0,0,0,0) in the image's unorm format. -/
def clearColor : RGBA := (0, 0, 0, 0)

/-- Modelled from the spec: the fragment shader `src/frag.glsl` is not
under `src/`; the spec requires only that interior pixels are "shaded",
i.e. receive a fixed color distinct from the clear color. -/
def fragColor : RGBA := (255, 0, 0, 255)

/-- All normalized-device coordinates below are scaled by 512 so they are
exact integers: an NDC value v becomes 512 * v.
First triangle vertex (line 133): position `[-0.5, -0.5]`, scaled
(-256, -256). -/
def vert1 : Int × Int := (-256, -256)

/-- Second triangle vertex (line 134): position `[0.0, 0.5]`, scaled
(0, 256). -/
def vert2 : Int × Int := (0, 256)

/-- Third triangle vertex (line 135): position `[0.5, -0.25]`, scaled
(256, -128). -/
def vert3 : Int × Int := (256, -128)

/-- The normalized-device coordinates of the center of pixel (x, y) under
the 512x512 viewport declared at lines 171-178, scaled by 512: the pixel
center (x + 0.5, y + 0.5) maps to NDC ((2x+1)/512 - 1, (2y+1)/512 - 1). -/
def pixelNDC (x y : Nat) : Int × Int :=
  (2 * (x : Int) + 1 - 512, 2 * (y : Int) + 1 - 512)

/-- The edge function of the directed edge a -> b evaluated at p:
positive on one side of the edge, negative on the other, zero on it. -/
def edge (a b p : Int × Int) : Int :=
  (b.1 - a.1) * (p.2 - a.2) - (b.2 - a.2) * (p.1 - a.1)

/-- Modelled from the spec: the rasterizer's point-in-triangle test. Pixel
(x, y) is interior when its center is strictly on the same side of all
three triangle edges. -/
def insideTriangle (x y : Nat) : Bool :=
  let p := pixelNDC x y
  let e1 := edge vert1 vert2 p
  let e2 := edge vert2 vert3 p
  let e3 := edge vert3 vert1 p
  (decide (0 < e1) && decide (0 < e2) && decide (0 < e3)) ||
    (decide (e1 < 0) && decide (e2 < 0) && decide (e3 < 0))

/-- The device-visible state the rasterization command buffer acts on: the
512x512 storage image, the readback buffer (viewed as pixels), and whether
a render pass is currently open. -/
structure RenderState where
  img : Nat → Nat → RGBA
  readback : Nat → Nat → RGBA
  inPass : Bool

/-- The operations recordable into the rasterization command buffer
(lines 180-191). -/
inductive RasterOp where
  | beginRenderPass (clear : RGBA)
  | draw
  | endRenderPass
  | copyImageToBuffer
  deriving DecidableEq, Repr

/-- One step of command-buffer execution. `begin_render_pass` with load-op
`Clear` (line 143) replaces every pixel of the attachment with the clear
value and opens the pass; `draw` shades every interior pixel; `end_render_pass`
closes the pass; `copy_image_to_buffer` copies the image into the readback
buffer. Steps that violate render-pass nesting (draw or end outside a pass,
begin or copy inside one) fail. -/
def rasterStep (s : RenderState) : RasterOp → Option RenderState
  | .beginRenderPass c =>
      if s.inPass then none
      else some { img := fun _ _ => c, readback := s.readback, inPass := true }
  | .draw =>
      if s.inPass then
        some { img := fun x y => if insideTriangle x y then fragColor else s.img x y,
               readback := s.readback, inPass := true }
      else none
  | .endRenderPass =>
      if s.inPass then some { img := s.img, readback := s.readback, inPass := false }
      else none
  | .copyImageToBuffer =>
      if s.inPass then none
      else some { img := s.img, readback := s.img, inPass := false }

/-- Execute a recorded command buffer: its operations run one after the
other, in exactly the order they were recorded. -/
def execOps (s : RenderState) : List RasterOp → Option RenderState
  | [] => some s
  | op :: rest => (rasterStep s op).bind fun t => execOps t rest

/-- The rasterization command buffer exactly as recorded at lines 180-191:
begin the render pass (with clear value (0,0,0,0)), draw, end the render
pass, then copy the image to the readback buffer. -/
def rasterCB : List RasterOp :=
  [ .beginRenderPass clearColor, .draw, .endRenderPass, .copyImageToBuffer ]

/-- An all-zero image, the initial contents of each readback buffer
(lines 106 and 129 fill them with `0u8`). -/
def zeroImg : Nat → Nat → RGBA := fun _ _ => (0, 0, 0, 0)

/-- The pixel contents written to triangle.png, as a function of whatever
the device image held before the rasterization submission. -/
def trianglePng (imgBefore : Nat → Nat → RGBA) : Option (Nat → Nat → RGBA) :=
  (execOps { img := imgBefore, readback := zeroImg, inPass := false } rasterCB).map
    fun s => s.readback

/-- The Mandelbrot dispatch (line 119: [512/8, 512/8, 1] workgroups of 8x8
invocations) writes every pixel of the 512x512 image; the per-pixel shader
`mandel` is a parameter: `src/mandelbrot.glsl` is a fixed shader but is not
under `src/`. -/
def mandelPass (mandel : Nat → Nat → RGBA) (img : Nat → Nat → RGBA) :
    Nat → Nat → RGBA :=
  fun x y => if x < 512 ∧ y < 512 then mandel x y else img x y

/-- The program's two image outputs — the pixels written to mandelbor.png
and to triangle.png — as a function of the fixed Mandelbrot shader and of
the initial (undefined) contents of the storage image. -/
def programOutputs (mandel : Nat → Nat → RGBA) (initImg : Nat → Nat → RGBA) :
    (Nat → Nat → RGBA) × Option (Nat → Nat → RGBA) :=
  let img1 := mandelPass mandel initImg
  (img1, trianglePng img1)

/-- A concrete initial render state for instantiating theorems. -/
def initRenderState : RenderState :=
  { img := zeroImg, readback := zeroImg, inPass := false }

/-- A constant image. -/
def constImg (c : RGBA) : Nat → Nat → RGBA := fun _ _ => c

/-! ## The files the program saves (main.rs lines 126-127 and 198-199) -/

/-- An image file written by the program. -/
structure SavedImage where
  name : String
  width : Nat
  height : Nat
  deriving DecidableEq, Repr

/-- The files `main` saves, in program order: the Mandelbrot render is
saved as "mandelbor.png" (line 127) and the rasterized triangle as
"triangle.png" (line 199), both 512x512. -/
def savedFiles : List SavedImage :=
  [ { name := "mandelbor.png", width := 512, height := 512 },
    { name := "triangle.png", width := 512, height := 512 } ]

end VulkanoSandbox

namespace VulkanoSandbox

/-! ## Theorems -/

/-- Claim C1: in `main`'s trace, every host read of a resource that a
submitted command buffer writes happens only after an unconditional
(unbounded-timeout) blocking wait on that submission's completion handle;
the host never reads a resource while a command buffer writing it is still
pending. -/
theorem mainTrace_waitBeforeRead : waitBeforeRead mainTrace := by
  show ∀ i < mainTrace.length, ∀ j < mainTrace.length, pairOkB mainTrace i j = true
  decide

/-- Claim C3: after executing the recorded copy from the source buffer
(64 elements initialized to 0..64) to the destination buffer (64 zero
elements), the destination equals the source element-for-element and the
source is unchanged. -/
theorem copy_buffer_correct :
    (copy_buffer copyInit).dest = copyInit.source ∧
    (copy_buffer copyInit).source = copyInit.source := by
  decide

/-- Claim C2: for every index n < 65536, after the multiply-by-12 compute
pass over `data_buffer` (element i initialized to i), element n equals
n * 12, within the 32-bit unsigned range. -/
theorem mul12Pass_correct (n : Nat) (h : n < 65536) :
    (mul12Pass dataBuffer)[n]? = some (n * 12) := by
  have hr : (List.range 65536)[n]? = some n := by
    rw [List.getElem?_range h]
  have : (mul12Pass dataBuffer)[n]? = ((List.range 65536)[n]?).map
      fun v => (v * 12) % 4294967296 := by
    simp [mul12Pass, dataBuffer]
  rw [this, hr]
  have hlt : n * 12 < 4294967296 := by omega
  simp [Nat.mod_eq_of_lt hlt]

/-- Witness for C2 at n = 7. -/
theorem mul12Pass_correct_witness :
    7 < 65536 ∧ (mul12Pass dataBuffer)[7]? = some (7 * 12) :=
  ⟨by decide, mul12Pass_correct 7 (by decide)⟩

/-- Counterexample for claim C4: on a configuration whose first device
exposes only a graphics-without-compute queue family while the second
device exposes a graphics-and-compute family, the code selects the first
device's compute-less family, not (as the claim states) the first device
exposing a graphics+compute family. -/
theorem acquire_device_counterexample :
    acquire_device devsGraphicsOnlyFirst =
      some { family := { supports_graphics := true, supports_compute := false },
             features := [], queueCount := 1 } ∧
    acquire_device_claim devsGraphicsOnlyFirst =
      some { family := { supports_graphics := true, supports_compute := true },
             features := [], queueCount := 1 } ∧
    acquire_device devsGraphicsOnlyFirst ≠
      acquire_device_claim devsGraphicsOnlyFirst := by
  decide

/-- Claim C4 (amended): device acquisition takes the first enumerated
device unconditionally, selects on it the first queue family supporting
graphics (compute support is not checked), opens it with no extended
features and returns one queue; it fails fatally when no device exists or
the first device has no graphics queue family. -/
theorem acquire_device_spec_amended (devs : List (List QueueFamily)) :
    (devs = [] → acquire_device devs = none) ∧
    (∀ d rest, devs = d :: rest →
        acquire_device devs =
          (d.find? fun q => q.supports_graphics).map fun q =>
            { family := q, features := [], queueCount := 1 }) ∧
    (∀ ctx, acquire_device devs = some ctx →
        ctx.family.supports_graphics = true ∧
        ctx.features = [] ∧ ctx.queueCount = 1) := by
  refine ⟨fun h => by subst h; rfl, fun d rest h => by subst h; rfl, ?_⟩
  intro ctx h
  cases devs with
  | nil => simp [acquire_device] at h
  | cons d rest =>
      simp only [acquire_device, Option.map_eq_some'] at h
      obtain ⟨q, hq, hctx⟩ := h
      have hg := List.find?_some hq
      subst hctx
      exact ⟨hg, rfl, rfl⟩

/-- Witness for the amended C4: on `devsOneDevice` acquisition returns the
second family of the single device, and the theorem yields its
properties. -/
theorem acquire_device_spec_amended_witness :
    acquire_device devsOneDevice = some ctxGC ∧
    (ctxGC.family.supports_graphics = true ∧
      ctxGC.features = [] ∧ ctxGC.queueCount = 1) :=
  ⟨by decide, (acquire_device_spec_amended devsOneDevice).2.2 ctxGC (by decide)⟩

/-- Claim C5: the rasterization command buffer holds, in the order the
recording calls were made, begin-render-pass (with the declared clear
value), draw, end-render-pass, and only then the image-to-buffer copy; and
execution of any recorded command buffer processes its operations strictly
in that recorded order, the head first and the rest afterwards. -/
theorem rasterCB_order :
    rasterCB =
      [.beginRenderPass clearColor, .draw, .endRenderPass, .copyImageToBuffer] ∧
    ∀ s op ops, execOps s (op :: ops) = (rasterStep s op).bind fun t => execOps t ops :=
  ⟨rfl, fun _ _ _ => rfl⟩

/-- Claim C6: from any state with no render pass open, executing the
rasterization command buffer succeeds and yields a readback image in which
every pixel whose center is interior to the triangle carries the shaded
fragment color, every other pixel carries the declared clear color
(0,0,0,0), the shaded color differs from the clear color, and both kinds
of pixel exist among the 512x512 pixel coordinates. -/
theorem raster_interior_exterior (init : RenderState) (h : init.inPass = false) :
    ∃ t, execOps init rasterCB = some t ∧
      (∀ x y, insideTriangle x y = true → t.readback x y = fragColor) ∧
      (∀ x y, insideTriangle x y = false → t.readback x y = clearColor) ∧
      fragColor ≠ clearColor ∧
      insideTriangle 255 234 = true ∧ insideTriangle 0 0 = false := by
  obtain ⟨img0, rb0, ip0⟩ := init
  dsimp only at h
  subst h
  refine ⟨_, rfl, ?_, ?_, by decide, by decide, by decide⟩
  · intro x y hxy
    simp [hxy]
  · intro x y hxy
    simp [hxy]

/-- Witness for C6 from the concrete all-zero initial state. -/
theorem raster_interior_exterior_witness :
    initRenderState.inPass = false ∧
    (∃ t, execOps initRenderState rasterCB = some t ∧
      (∀ x y, insideTriangle x y = true → t.readback x y = fragColor) ∧
      (∀ x y, insideTriangle x y = false → t.readback x y = clearColor) ∧
      fragColor ≠ clearColor ∧
      insideTriangle 255 234 = true ∧ insideTriangle 0 0 = false) :=
  ⟨rfl, raster_interior_exterior initRenderState rfl⟩

/-- Claim C7: two complete runs with the same fixed shaders and vertex
inputs produce byte-identical output images, whatever the initial
(undefined) contents of the storage image were in each run: the Mandelbrot
readback agrees on every 512x512 pixel and the triangle readback is
identical outright. -/
theorem program_deterministic (mandel init1 init2 : Nat → Nat → RGBA)
    (x y : Nat) (hx : x < 512) (hy : y < 512) :
    (programOutputs mandel init1).1 x y = (programOutputs mandel init2).1 x y ∧
    (programOutputs mandel init1).2 = (programOutputs mandel init2).2 := by
  constructor
  · simp [programOutputs, mandelPass, hx, hy]
  · rfl

/-- Witness for C7 at pixel (0, 0) with concrete shader and two distinct
concrete initial image contents. -/
theorem program_deterministic_witness :
    0 < 512 ∧
    ((programOutputs (constImg (1, 2, 3, 4)) (constImg (0, 0, 0, 0))).1 0 0 =
        (programOutputs (constImg (1, 2, 3, 4)) (constImg (9, 9, 9, 9))).1 0 0 ∧
      (programOutputs (constImg (1, 2, 3, 4)) (constImg (0, 0, 0, 0))).2 =
        (programOutputs (constImg (1, 2, 3, 4)) (constImg (9, 9, 9, 9))).2) :=
  ⟨by decide,
    program_deterministic (constImg (1, 2, 3, 4)) (constImg (0, 0, 0, 0))
      (constImg (9, 9, 9, 9)) 0 0 (by decide) (by decide)⟩

/-- Claim C9: because the render pass's color attachment has load-op
Clear, the bytes written to triangle.png do not depend on the device
image's prior (Mandelbrot) contents: any two prior image contents yield
identical triangle readbacks. -/
theorem trianglePng_independent_of_prior (m1 m2 : Nat → Nat → RGBA) :
    trianglePng m1 = trianglePng m2 :=
  rfl

/-- Counterexample for claim C8: the program writes two image files, not
three. -/
theorem savedFiles_count_not_three :
    savedFiles.length = 2 ∧ savedFiles.length ≠ 3 := by
  decide

/-- Claim C8 (amended): on a successful run the program writes two image
files to the working directory: a Mandelbrot-set render (512x512) and a
rasterized-triangle render (512x512). -/
theorem savedFiles_two_images :
    savedFiles.length = 2 ∧
    savedFiles =
      [ { name := "mandelbor.png", width := 512, height := 512 },
        { name := "triangle.png", width := 512, height := 512 } ] := by
  decide

/-- Claim C10: the Mandelbrot render is saved to a file named exactly
"mandelbor.png" (not "mandelbrot.png") and the rasterized triangle to a
file named exactly "triangle.png". -/
theorem savedFiles_names :
    savedFiles.map SavedImage.name = ["mandelbor.png", "triangle.png"] ∧
    "mandelbor.png" ≠ "mandelbrot.png" := by
  constructor
  · decide
  · decide

end VulkanoSandbox
